import Mathlib

/-!
Verification of the currency-app poller (src/src/main.rs).

Shallow embedding conventions:
* `druid::im::Vector<Currency>` is modelled as `List Currency` (an ordered
  sequence; only iteration, mapping and wholesale replacement are used).
* Rust `f32` prices are modelled as exact rationals `ℚ`; the string-to-float
  parse `str::parse::<f32>()` is modelled as exact decimal parsing into `ℚ`
  (optional sign, integer digits, optional fractional digits — the forms
  the API's numeric strings take).
* `serde_json::Value` is modelled by the inductive `Json`; indexing with a
  missing key or on a non-object yields `Json.null`, as serde does.
* Every `.unwrap()` / `.expect()` in the Rust code is a potential process
  panic; fallible steps therefore return `Option`, with `none` meaning the
  process panics, and the whole cycle `call_api` returns a `CycleOutcome`
  with an explicit `panic` case.
-/

/-- `const ASK_FIELD: &str = "ask"` from main.rs. -/
def ASK_FIELD : String := "ask"

/-- `const BID_FIELD: &str = "bid"` from main.rs. -/
def BID_FIELD : String := "bid"

/-- The `Currency` struct of main.rs: base/target codes and bid/ask prices
(`f32` prices modelled as exact rationals). -/
structure Currency where
  base : String
  target : String
  bid : ℚ
  ask : ℚ
deriving DecidableEq, Repr

/-- `Currency::new(base, target)`: owned copies of the codes, zero prices. -/
def Currency.new (base target : String) : Currency :=
  { base := base, target := target, bid := 0, ask := 0 }

/-- The `AppState` struct of main.rs: the UI state store holding the
currency list. -/
structure AppState where
  currency_list : List Currency
deriving DecidableEq

/-- `impl Default for AppState`: the initial tracked pair list
EUR/USD, ETH/USD, BTC/USD. -/
def AppState.default : AppState :=
  { currency_list :=
      [ Currency.new "EUR" "USD"
      , Currency.new "ETH" "USD"
      , Currency.new "BTC" "USD" ] }

/-- Model of `serde_json::Value`. -/
inductive Json where
  | null
  | bool (b : Bool)
  | num (q : ℚ)
  | str (s : String)
  | arr (items : List Json)
  | obj (fields : List (String × Json))

/-- serde_json `Value` indexing by string key (`resp[&key]`): on an object,
the value at the key; `Value::Null` when the key is absent or the value is
not an object. -/
def Json.index : Json → String → Json
  | Json.obj fields, key =>
      match fields.find? (fun f => f.1 == key) with
      | some f => f.2
      | none => Json.null
  | _, _ => Json.null

/-- serde_json `Value::as_str`: `Some` only on a JSON string. -/
def Json.as_str : Json → Option String
  | Json.str s => some s
  | _ => none

/-- Value of a list of decimal digit characters, most significant first. -/
def digitsToNat (l : List Char) : Nat :=
  l.foldl (fun n c => 10 * n + (c.toNat - 48)) 0

/-- Unsigned decimal literal: digits, optionally followed by a dot and more
digits; at least one digit overall (accepts "5", "5.", "5.10", ".5"). -/
def parseDecimal (l : List Char) : Option ℚ :=
  let intPart := l.takeWhile Char.isDigit
  let rest := l.dropWhile Char.isDigit
  match rest with
  | [] => if intPart.isEmpty then none else some (mkRat (digitsToNat intPart) 1)
  | '.' :: frac =>
      if frac.all Char.isDigit && !(intPart.isEmpty && frac.isEmpty) then
        some (mkRat (digitsToNat intPart * 10 ^ frac.length + digitsToNat frac) (10 ^ frac.length))
      else none
  | _ => none

/-- Model of `str::parse::<f32>()` on the decimal strings the API returns:
optional sign then an unsigned decimal literal, valued exactly in `ℚ`. -/
def parseNum (s : String) : Option ℚ :=
  match s.data with
  | '-' :: rest => (parseDecimal rest).map (fun q => -q)
  | '+' :: rest => parseDecimal rest
  | l => parseDecimal l

/-- The per-record body of the `map` closure in `call_api` (main.rs
lines 162–167): look up `resp[&format!("{}{}", base, target)]`, read the
`"ask"` and `"bid"` string fields and parse them. Each `unwrap` that would
panic is `none`. -/
def update_currency (resp : Json) (c : Currency) : Option Currency :=
  let pair_name : String := c.base ++ c.target
  match ((resp.index pair_name).index ASK_FIELD).as_str with
  | none => none
  | some ask_str =>
    match parseNum ask_str with
    | none => none
    | some ask =>
      match ((resp.index pair_name).index BID_FIELD).as_str with
      | none => none
      | some bid_str =>
        match parseNum bid_str with
        | none => none
        | some bid =>
          some { base := c.base, target := c.target, bid := bid, ask := ask }

/-- `currency_list.iter().map(|c| ...).collect()` of `call_api`: the whole
collected list, or `none` if any element's closure panics. -/
def update_currencies (resp : Json) : List Currency → Option (List Currency)
  | [] => some []
  | c :: rest =>
    match update_currency resp c with
    | none => none
    | some c2 =>
      match update_currencies resp rest with
      | none => none
      | some rest2 => some (c2 :: rest2)

/-- `pair_param` of main.rs (lines 178–183): join each pair as
`"{base}-{target}"` with commas, in list order. `Vec::join(",")` is
`String.intercalate ","`. -/
def pair_param (currency_list : List Currency) : String :=
  String.intercalate "," (currency_list.map (fun c => c.base ++ "-" ++ c.target))

/-- The request URL built in `call_api` (line 156). -/
def request_url (currency_list : List Currency) : String :=
  "https://economia.awesomeapi.com.br/last/" ++ pair_param currency_list

/-- Result of `response.text()` and status: the HTTP response observed by
`call_api`; `text = none` models a body-extraction failure. -/
structure HttpResponse where
  status : Nat
  text : Option String
deriving DecidableEq

/-- Result of `reqwest::blocking::get`: transport failure or a response. -/
inductive FetchResult where
  | err
  | ok (r : HttpResponse)
deriving DecidableEq

/-- What one `call_api` invocation does: publish a new list via the event
sink, publish nothing (non-success status branch), or panic the process
(an `unwrap` failed). -/
inductive CycleOutcome where
  | published (l : List Currency)
  | noPublish
  | panic
deriving DecidableEq

/-- `call_api` of main.rs (lines 154–176). `parseJson` models
`serde_json::from_str` on the body; `200` is `reqwest::StatusCode::OK`.
Control flow mirrors the source: `get(..).unwrap()`, match on status, then
`text().unwrap()`, `from_str(..).unwrap()`, the mapping closure's unwraps,
and finally `sink.submit_command` with the new list. -/
def call_api (currency_list : List Currency) (fetch : FetchResult)
    (parseJson : String → Option Json) : CycleOutcome :=
  match fetch with
  | FetchResult.err => CycleOutcome.panic
  | FetchResult.ok response =>
    if response.status = 200 then
      match response.text with
      | none => CycleOutcome.panic
      | some body =>
        match parseJson body with
        | none => CycleOutcome.panic
        | some resp =>
          match update_currencies resp currency_list with
          | none => CycleOutcome.panic
          | some currencies => CycleOutcome.published currencies
    else
      CycleOutcome.noPublish

/-- `Delegate::command` (main.rs lines 19–32) restricted to its effect on
`AppState`: a `SET_CURRENCIES` command (payload `some list`) replaces
`currency_list` wholesale; any other command leaves the state unchanged.
Both branches return `Handled::Yes`. -/
def delegate_command (cmd : Option (List Currency)) (app_state : AppState) : AppState :=
  match cmd with
  | some list => { app_state with currency_list := list }
  | none => app_state

/-- Effect of one cycle's outcome on the UI state store: a published list
reaches the store through `Delegate::command`; no publish leaves it alone;
a panic kills the process (`none`). -/
def apply_outcome (s : AppState) : CycleOutcome → Option AppState
  | CycleOutcome.published l => some (delegate_command (some l) s)
  | CycleOutcome.noPublish => some s
  | CycleOutcome.panic => none

/-- Comma-join written exactly as the spec describes it: each pair as
`"BASE-TARGET"`, comma-separated, in list order (spec §4.2 step 1, §8).
Used only to compare against the source-derived `pair_param`. -/
def pairParamSpec : List Currency → String
  | [] => ""
  | [c] => c.base ++ "-" ++ c.target
  | c :: rest => c.base ++ "-" ++ c.target ++ "," ++ pairParamSpec rest

/-! ### Helper lemmas (shared) -/

/-- Tail of a comma join: a comma before every element. Proof helper for
relating `String.intercalate ","` to the spec's comma join. -/
def joinTail : List String → String
  | [] => ""
  | a :: as => "," ++ a ++ joinTail as

lemma intercalate_go_eq (as : List String) : ∀ (acc : String),
    String.intercalate.go acc "," as = acc ++ joinTail as := by
  induction as with
  | nil => intro acc; simp [String.intercalate.go, joinTail]
  | cons a as ih => intro acc; simp [String.intercalate.go, joinTail, ih, String.append_assoc]

lemma pair_param_cons (c : Currency) (l : List Currency) :
    pair_param (c :: l) =
      c.base ++ "-" ++ c.target ++ joinTail (l.map (fun x => x.base ++ "-" ++ x.target)) := by
  simp [pair_param, String.intercalate, intercalate_go_eq]

lemma pairParamSpec_cons (c : Currency) : ∀ l : List Currency,
    pairParamSpec (c :: l) =
      c.base ++ "-" ++ c.target ++ joinTail (l.map (fun x => x.base ++ "-" ++ x.target))
  | [] => by simp [pairParamSpec, joinTail]
  | c2 :: rest => by
      have ih := pairParamSpec_cons c2 rest
      simp [pairParamSpec, joinTail, ih, String.append_assoc]

lemma update_currency_base_target {resp : Json} {c c2 : Currency}
    (h : update_currency resp c = some c2) : c2.base = c.base ∧ c2.target = c.target := by
  unfold update_currency at h
  dsimp only at h
  cases h1 : ((resp.index (c.base ++ c.target)).index ASK_FIELD).as_str with
  | none => simp only [h1] at h; cases h
  | some ask_str =>
    simp only [h1] at h
    cases h2 : parseNum ask_str with
    | none => simp only [h2] at h; cases h
    | some ask =>
      simp only [h2] at h
      cases h3 : ((resp.index (c.base ++ c.target)).index BID_FIELD).as_str with
      | none => simp only [h3] at h; cases h
      | some bid_str =>
        simp only [h3] at h
        cases h4 : parseNum bid_str with
        | none => simp only [h4] at h; cases h
        | some bid =>
          simp only [h4, Option.some.injEq] at h
          subst h
          exact ⟨rfl, rfl⟩

lemma update_preserves_pairs (resp : Json) : ∀ (l l' : List Currency),
    update_currencies resp l = some l' →
    l'.map (fun c => (c.base, c.target)) = l.map (fun c => (c.base, c.target))
  | [], l', h => by
      simp only [update_currencies, Option.some.injEq] at h
      subst h; rfl
  | c :: rest, l', h => by
      simp only [update_currencies] at h
      cases hc : update_currency resp c with
      | none => rw [hc] at h; exact absurd h (by simp)
      | some c2 =>
        rw [hc] at h
        cases hr : update_currencies resp rest with
        | none => rw [hr] at h; exact absurd h (by simp)
        | some rest2 =>
          rw [hr] at h
          simp only [Option.some.injEq] at h
          subst h
          obtain ⟨hb, ht⟩ := update_currency_base_target hc
          have ih := update_preserves_pairs resp rest rest2 hr
          simp [hb, ht, ih]

lemma pair_param_eq_of_pairs {l l' : List Currency}
    (h : l'.map (fun c => (c.base, c.target)) = l.map (fun c => (c.base, c.target))) :
    pair_param l' = pair_param l := by
  unfold pair_param
  have h2 : l'.map (fun c => c.base ++ "-" ++ c.target)
      = l.map (fun c => c.base ++ "-" ++ c.target) := by
    have h1 := congrArg (List.map (fun p : String × String => p.1 ++ "-" ++ p.2)) h
    simpa [List.map_map, Function.comp] using h1
  rw [h2]

/-! ### Claim theorems -/

/-- Claim C1: for every non-empty tracked pair list, the request parameter
string produced by `pair_param` equals the comma-join of "base-target" for
each record, in list order (the spec's join, `pairParamSpec`). -/
theorem pair_param_matches_spec_join_C1 (l : List Currency) (h : l ≠ []) :
    pair_param l = pairParamSpec l := by
  cases l with
  | nil => exact absurd rfl h
  | cons c rest => rw [pair_param_cons, pairParamSpec_cons]

/-- Witness for C1 at the spec's example: pairs EUR/USD and BTC/USD give
"EUR-USD,BTC-USD". -/
theorem pair_param_matches_spec_join_C1_wit :
    [Currency.new "EUR" "USD", Currency.new "BTC" "USD"] ≠ ([] : List Currency) ∧
    pair_param [Currency.new "EUR" "USD", Currency.new "BTC" "USD"]
      = pairParamSpec [Currency.new "EUR" "USD", Currency.new "BTC" "USD"] ∧
    pairParamSpec [Currency.new "EUR" "USD", Currency.new "BTC" "USD"] = "EUR-USD,BTC-USD" :=
  ⟨by decide,
   pair_param_matches_spec_join_C1 [Currency.new "EUR" "USD", Currency.new "BTC" "USD"] (by decide),
   by decide⟩

/-- Claim C3, evaluated against the code (the claim is refuted): each kind
of per-cycle fetch/parse failure makes `call_api` panic the whole process
rather than contain the error — transport failure, body-text failure, JSON
parse failure, missing pair key, and a non-numeric "ask" string all reach
an `unwrap` and hit the `panic` outcome. Only a non-success status is
contained. -/
theorem per_cycle_failures_panic_C3 :
    call_api [Currency.new "EUR" "USD"] FetchResult.err (fun _ => none)
      = CycleOutcome.panic ∧
    call_api [Currency.new "EUR" "USD"]
      (FetchResult.ok { status := 200, text := none }) (fun _ => none)
      = CycleOutcome.panic ∧
    call_api [Currency.new "EUR" "USD"]
      (FetchResult.ok { status := 200, text := some "not json" }) (fun _ => none)
      = CycleOutcome.panic ∧
    call_api [Currency.new "EUR" "USD"]
      (FetchResult.ok { status := 200, text := some "resp-body" })
      (fun _ => some (Json.obj []))
      = CycleOutcome.panic ∧
    call_api [Currency.new "EUR" "USD"]
      (FetchResult.ok { status := 200, text := some "resp-body" })
      (fun _ => some (Json.obj
        [("EURUSD", Json.obj [("bid", Json.str "5.10"), ("ask", Json.str "oops")])]))
      = CycleOutcome.panic :=
  ⟨rfl, rfl, rfl, by decide, by decide⟩

/-- Claim C4, evaluated against the code (the claim is refuted): when the
response is missing the key for one tracked pair, the pair's record is not
left unchanged — the `unwrap` on `as_str` panics, the whole cycle dies, and
even the other pair whose key is present (BTCUSD here) is not updated. -/
theorem missing_key_panics_C4 :
    update_currencies
      (Json.obj [("BTCUSD", Json.obj [("bid", Json.str "1.0"), ("ask", Json.str "2.0")])])
      [Currency.new "EUR" "USD", Currency.new "BTC" "USD"] = none ∧
    call_api [Currency.new "EUR" "USD", Currency.new "BTC" "USD"]
      (FetchResult.ok { status := 200, text := some "resp-body" })
      (fun _ => some (Json.obj
        [("BTCUSD", Json.obj [("bid", Json.str "1.0"), ("ask", Json.str "2.0")])]))
      = CycleOutcome.panic :=
  ⟨by decide, by decide⟩

/-- Claim C5: when the HTTP status is not success, `call_api` publishes
nothing (only the error branch runs) and the UI state store after the cycle
is the state before the cycle. -/
theorem non_success_keeps_state_C5 (l : List Currency) (resp : HttpResponse)
    (parseJson : String → Option Json) (s : AppState) (h : resp.status ≠ 200) :
    call_api l (FetchResult.ok resp) parseJson = CycleOutcome.noPublish ∧
    apply_outcome s (call_api l (FetchResult.ok resp) parseJson) = some s := by
  have hc : call_api l (FetchResult.ok resp) parseJson = CycleOutcome.noPublish := by
    simp [call_api, h]
  exact ⟨hc, by rw [hc]; rfl⟩

/-- Witness for C5 at status 404 and the startup state. -/
theorem non_success_keeps_state_C5_wit :
    ({ status := 404, text := none } : HttpResponse).status ≠ 200 ∧
    (call_api [] (FetchResult.ok { status := 404, text := none }) (fun _ => none)
       = CycleOutcome.noPublish ∧
     apply_outcome AppState.default
       (call_api [] (FetchResult.ok { status := 404, text := none }) (fun _ => none))
       = some AppState.default) :=
  ⟨by decide,
   non_success_keeps_state_C5 [] { status := 404, text := none } (fun _ => none)
     AppState.default (by decide)⟩

/-- Claim C8: `Currency::new` produces a record with zero bid and ask, and
the startup state is exactly EUR/USD, ETH/USD, BTC/USD in that order, each
zero-valued. -/
theorem currency_new_zero_default_list_C8 :
    (∀ b t, Currency.new b t = { base := b, target := t, bid := 0, ask := 0 }) ∧
    AppState.default.currency_list =
      [ { base := "EUR", target := "USD", bid := 0, ask := 0 },
        { base := "ETH", target := "USD", bid := 0, ask := 0 },
        { base := "BTC", target := "USD", bid := 0, ask := 0 } ] :=
  ⟨fun _ _ => rfl, rfl⟩

/-- Claim C9: on the empty tracked pair list `pair_param` returns the empty
string and the request URL degenerates to the bare endpoint. -/
theorem empty_list_empty_param_C9 :
    pair_param [] = "" ∧
    request_url [] = "https://economia.awesomeapi.com.br/last/" :=
  ⟨rfl, rfl⟩

/-- Claim C10: the per-cycle update is deterministic — its result depends
only on the tracked pair list and the parsed response value. -/
theorem update_deterministic_C10 (l1 l2 : List Currency) (r1 r2 : Json)
    (h1 : l1 = l2) (h2 : r1 = r2) :
    update_currencies r1 l1 = update_currencies r2 l2 := by
  rw [h1, h2]

/-- Witness for C10 at a concrete list and response. -/
theorem update_deterministic_C10_wit :
    update_currencies (Json.obj []) [Currency.new "EUR" "USD"]
      = update_currencies (Json.obj []) [Currency.new "EUR" "USD"] :=
  update_deterministic_C10 [Currency.new "EUR" "USD"] [Currency.new "EUR" "USD"]
    (Json.obj []) (Json.obj []) rfl rfl

lemma update_currency_eq (resp : Json) (c : Currency) (a b : ℚ)
    (ha : ((resp.index (c.base ++ c.target)).index ASK_FIELD).as_str.bind parseNum = some a)
    (hb : ((resp.index (c.base ++ c.target)).index BID_FIELD).as_str.bind parseNum = some b) :
    update_currency resp c = some { base := c.base, target := c.target, bid := b, ask := a } := by
  rcases Option.bind_eq_some.mp ha with ⟨s1, hs1, hp1⟩
  rcases Option.bind_eq_some.mp hb with ⟨s2, hs2, hp2⟩
  unfold update_currency
  dsimp only
  simp only [hs1, hp1, hs2, hp2]

/-- Claim C2: when the response holds, for every tracked pair, an object
keyed "basetarget" whose "ask" and "bid" fields are numeric strings parsing
to `fa c` and `fb c`, the cycle's update maps the list in order to records
with those parsed prices and unchanged base/target. -/
theorem update_parses_ask_bid_C2 (l : List Currency) (resp : Json) (fa fb : Currency → ℚ)
    (h : ∀ c ∈ l,
      ((resp.index (c.base ++ c.target)).index ASK_FIELD).as_str.bind parseNum = some (fa c) ∧
      ((resp.index (c.base ++ c.target)).index BID_FIELD).as_str.bind parseNum = some (fb c)) :
    update_currencies resp l
      = some (l.map (fun c =>
          { base := c.base, target := c.target, bid := fb c, ask := fa c })) := by
  induction l with
  | nil => rfl
  | cons c rest ih =>
    have hc := h c (List.mem_cons_self c rest)
    have hupd := update_currency_eq resp c (fa c) (fb c) hc.1 hc.2
    have hrest := ih (fun x hx => h x (List.mem_cons_of_mem c hx))
    simp only [update_currencies, hupd, hrest, List.map_cons]

/-- Witness for C2 at the spec's example: response EURUSD with bid "5.10"
and ask "5.20" for pair EUR/USD yields bid 51/10 and ask 26/5. -/
theorem update_parses_ask_bid_C2_wit :
    (∀ c ∈ [Currency.new "EUR" "USD"],
      (((Json.obj [("EURUSD", Json.obj [("bid", Json.str "5.10"), ("ask", Json.str "5.20")])]).index
          (c.base ++ c.target)).index ASK_FIELD).as_str.bind parseNum
        = some ((fun _ => mkRat 26 5) c) ∧
      (((Json.obj [("EURUSD", Json.obj [("bid", Json.str "5.10"), ("ask", Json.str "5.20")])]).index
          (c.base ++ c.target)).index BID_FIELD).as_str.bind parseNum
        = some ((fun _ => mkRat 51 10) c)) ∧
    update_currencies
      (Json.obj [("EURUSD", Json.obj [("bid", Json.str "5.10"), ("ask", Json.str "5.20")])])
      [Currency.new "EUR" "USD"]
      = some ([Currency.new "EUR" "USD"].map (fun c =>
          { base := c.base, target := c.target,
            bid := (fun _ => mkRat 51 10) c, ask := (fun _ => mkRat 26 5) c })) :=
  ⟨by decide,
   update_parses_ask_bid_C2 [Currency.new "EUR" "USD"]
     (Json.obj [("EURUSD", Json.obj [("bid", Json.str "5.10"), ("ask", Json.str "5.20")])])
     (fun _ => mkRat 26 5) (fun _ => mkRat 51 10) (by decide)⟩

/-- Claim C6: a successful per-cycle update never changes the request
parameter string — `pair_param` of the updated list equals `pair_param` of
the list before the update. -/
theorem update_preserves_pair_param_C6 (l l' : List Currency) (resp : Json)
    (h : update_currencies resp l = some l') :
    pair_param l' = pair_param l :=
  pair_param_eq_of_pairs (update_preserves_pairs resp l l' h)

/-- Witness for C6 at a concrete successful update. -/
theorem update_preserves_pair_param_C6_wit :
    update_currencies
      (Json.obj [("EURUSD", Json.obj [("bid", Json.str "5.10"), ("ask", Json.str "5.20")])])
      [Currency.new "EUR" "USD"]
      = some [{ base := "EUR", target := "USD", bid := mkRat 51 10, ask := mkRat 26 5 }] ∧
    pair_param [{ base := "EUR", target := "USD", bid := mkRat 51 10, ask := mkRat 26 5 }]
      = pair_param [Currency.new "EUR" "USD"] :=
  ⟨by decide,
   update_preserves_pair_param_C6 [Currency.new "EUR" "USD"]
     [{ base := "EUR", target := "USD", bid := mkRat 51 10, ask := mkRat 26 5 }]
     (Json.obj [("EURUSD", Json.obj [("bid", Json.str "5.10"), ("ask", Json.str "5.20")])])
     (by decide)⟩

/-- Claim C7: base and target are never changed by the per-cycle update,
and the only mutation of the stored list — `Delegate::command` on a
SET_CURRENCIES command — replaces the entire list wholesale. -/
theorem base_target_immutable_wholesale_C7 :
    (∀ (resp : Json) (l l' : List Currency), update_currencies resp l = some l' →
       l'.map (fun c => (c.base, c.target)) = l.map (fun c => (c.base, c.target))) ∧
    (∀ (s : AppState) (list : List Currency),
       delegate_command (some list) s = { currency_list := list }) :=
  ⟨fun resp l l' h => update_preserves_pairs resp l l' h, fun _ _ => rfl⟩

/-- Witness for C7 at a concrete update and a concrete command. -/
theorem base_target_immutable_wholesale_C7_wit :
    update_currencies
      (Json.obj [("EURUSD", Json.obj [("bid", Json.str "5.10"), ("ask", Json.str "5.20")])])
      [Currency.new "EUR" "USD"]
      = some [{ base := "EUR", target := "USD", bid := mkRat 51 10, ask := mkRat 26 5 }] ∧
    [({ base := "EUR", target := "USD", bid := mkRat 51 10, ask := mkRat 26 5 } : Currency)].map
        (fun c => (c.base, c.target))
      = [Currency.new "EUR" "USD"].map (fun c => (c.base, c.target)) ∧
    delegate_command (some []) AppState.default = { currency_list := [] } :=
  ⟨by decide,
   base_target_immutable_wholesale_C7.1
     (Json.obj [("EURUSD", Json.obj [("bid", Json.str "5.10"), ("ask", Json.str "5.20")])])
     [Currency.new "EUR" "USD"]
     [{ base := "EUR", target := "USD", bid := mkRat 51 10, ask := mkRat 26 5 }]
     (by decide),
   base_target_immutable_wholesale_C7.2 AppState.default []⟩
